import Mathlib

/-!
Verification of the SecureAuthProject authentication core and its audit
logging / intrusion detection engine.

Part A embeds `src/auth_core.cpp` (DJB2 hashing, bounded string copy,
simplified TOTP generation and validation, credential validation).

Part B embeds the audit logging / intrusion detection engine.  The Python
implementation (`audit_log.py`) is not part of the repository sources; it is
documented in `src/AUDIT_LOGGING.md` (schema, detection thresholds, example
output) and reconstructed in the design document.  Definitions in Part B are
therefore modelled from the spec, with `src/AUDIT_LOGGING.md` as the
repository-side authority where it shows concrete behaviour.
-/

namespace AuthCore

/-- C strings are modelled as lists of byte values (the characters before the
terminating NUL); a well-formed C string content contains no 0 byte. -/
def strBytes (s : String) : List Nat := s.data.map (fun c => c.toNat)

/-- One step of the DJB2 loop from `djb2_hash` in `src/auth_core.cpp`:
`hash = ((hash << 5) + hash) + c` on `uint32_t`, i.e. `hash * 33 + c` modulo
2^32.  `c` is read through a (signed) `char`, so a byte `b ≥ 128` contributes
`b - 256`, which modulo 2^32 is `b + 4294967040`. -/
def djb2_step (h : Nat) (b : Nat) : Nat :=
  (33 * h + (if b < 128 then b else b + 4294967040)) % 4294967296

/-- The function `djb2_hash` from `src/auth_core.cpp`: fold the DJB2 step over the bytes of
the string, starting from 5381. -/
def djb2_hash (s : List Nat) : Nat := s.foldl djb2_step 5381

/-- The constant `STORED_PASSWORD_HASH` from `src/auth_core.cpp` (the DJB2 hash of
"admin123"). -/
def STORED_PASSWORD_HASH : Nat := 407908580

/-- The constant `TOTP_SECRET` from `src/auth_core.cpp`. -/
def TOTP_SECRET : List Nat := strBytes "MY_SUPER_SECRET_KEY"

/-- The function `secure_strcpy` from `src/auth_core.cpp`, viewed as the string content it
leaves in `dest`: `strncpy` copies at most `dest_size - 1` characters and the
last byte is forced to NUL, so the resulting C string is `src` truncated to
`dest_size - 1` characters (for `dest_size ≥ 1`; for `dest_size = 0` the
function writes nothing). -/
def secure_strcpy (src : List Nat) (dest_size : Nat) : List Nat :=
  src.take (dest_size - 1)

/-- The function `generate_totp` from `src/auth_core.cpp`:
`(uint32_t)(current_time / 30) + djb2_hash(TOTP_SECRET)` on `uint32_t`,
then `% 1000000`. -/
def generate_totp (current_time : Nat) : Nat :=
  ((current_time / 30) % 4294967296 + djb2_hash TOTP_SECRET) % 4294967296
    % 1000000

/-- The function `validate_login` from `src/auth_core.cpp`: both inputs are copied through
`secure_strcpy` into 50-byte buffers, then the username is compared with
"admin" by `strcmp` and the DJB2 hash of the password is compared with
`STORED_PASSWORD_HASH`. -/
def validate_login (username password : List Nat) : Bool :=
  let safe_username := secure_strcpy username 50
  let safe_password := secure_strcpy password 50
  if safe_username ≠ strBytes "admin" then false
  else djb2_hash safe_password == STORED_PASSWORD_HASH

/-- The function `validate_totp` from `src/auth_core.cpp`, with the current time `now`
passed explicitly in place of `std::time(0)`: accept the code of the current
30-second window, or of the immediately previous one. -/
def validate_totp (now : Nat) (user_code : Nat) : Bool :=
  if generate_totp now == user_code then true
  else if generate_totp (now - 30) == user_code then true
  else false

end AuthCore


namespace AuditLog

/-- Event types of an audit event (spec §3; `src/AUDIT_LOGGING.md` schema:
LOGIN, TOTP, REGISTRATION, LOCKOUT). -/
inductive EventType
  | LOGIN
  | TOTP
  | REGISTRATION
  | LOCKOUT
deriving DecidableEq, Repr

/-- Statuses of an audit event (spec §3; `src/AUDIT_LOGGING.md` schema:
SUCCESS, FAILURE, BLOCKED). -/
inductive Status
  | SUCCESS
  | FAILURE
  | BLOCKED
deriving DecidableEq, Repr

/-- Risk / severity tags.  The spec (§3) lists LOW, MEDIUM, HIGH, CRITICAL;
the user-activity view in `src/AUDIT_LOGGING.md` (line 218) additionally
shows a successful REGISTRATION displayed with the tag INFO, so the tag INFO
is part of the value space actually produced by the code. -/
inductive RiskLevel
  | LOW
  | MEDIUM
  | HIGH
  | CRITICAL
  | INFO
deriving DecidableEq, Repr

/-- Alert types (spec §3; `src/AUDIT_LOGGING.md` schema). -/
inductive AlertType
  | BRUTE_FORCE
  | RAPID_FIRE
  | UNUSUAL_TIMING
  | ACCOUNT_ENUMERATION
deriving DecidableEq, Repr

/-- Modelled from the spec: the `audit_log` table row of the missing
`audit_log.py` (spec §3; `src/AUDIT_LOGGING.md` schema).  Timestamps are
seconds since the epoch. -/
structure AuditEvent where
  id : Nat
  timestamp : Nat
  principal : String
  event_type : EventType
  status : Status
  source : String
  details : List (String × String)
  risk_level : RiskLevel
deriving DecidableEq, Repr

/-- Modelled from the spec: the `intrusion_alerts` table row of the missing
`audit_log.py` (spec §3; `src/AUDIT_LOGGING.md` schema).  `resolved` is the
only mutable field. -/
structure Alert where
  id : Nat
  created_at : Nat
  principal : String
  alert_type : AlertType
  severity : RiskLevel
  description : String
  resolved : Bool
deriving DecidableEq, Repr

/-- Modelled from the spec: the persistent state of the engine — the
append-only event store, the alert store, and the id counters (spec §3,
§4.1). -/
structure EngineState where
  events : List AuditEvent
  alerts : List Alert
  next_event_id : Nat
  next_alert_id : Nat
deriving DecidableEq, Repr

/-- The initial, empty engine state. -/
def emptyState : EngineState :=
  { events := [], alerts := [], next_event_id := 1, next_alert_id := 1 }

/-- Membership of a timestamp in the half-open sliding window
`(now - width, now]`, stated without truncated subtraction. -/
def inWindow (ts now width : Nat) : Bool :=
  decide (ts ≤ now) && decide (now < ts + width)

/-- Modelled from the spec: `failures_15m` of the Window Aggregator of the
missing `audit_log.py` (spec §4.3) — FAILURE events of the principal with
`event_type ∈ {LOGIN, TOTP}` and timestamp in `(now − 15min, now]`. -/
def failures_15m (evs : List AuditEvent) (p : String) (now : Nat) : Nat :=
  (evs.filter (fun e =>
    e.principal == p && e.status == Status.FAILURE &&
    (e.event_type == EventType.LOGIN || e.event_type == EventType.TOTP) &&
    inWindow e.timestamp now 900)).length

/-- Modelled from the spec: `attempts_60s` of the Window Aggregator of the
missing `audit_log.py` (spec §4.3) — events of the principal with any status
and timestamp in `(now − 60s, now]`. -/
def attempts_60s (evs : List AuditEvent) (p : String) (now : Nat) : Nat :=
  (evs.filter (fun e =>
    e.principal == p && inWindow e.timestamp now 60)).length

/-- Hour of the day (0–23) of a timestamp, local time taken as the
timestamp's own clock. -/
def hourOfDay (ts : Nat) : Nat := ts / 3600 % 24

/-- Whether a timestamp falls at an unusual hour: local hour-of-day outside
`[6, 22)` (spec §4.3; `src/AUDIT_LOGGING.md`: 10 PM – 6 AM). -/
def unusualHour (ts : Nat) : Bool :=
  decide (hourOfDay ts < 6) || decide (22 ≤ hourOfDay ts)

/-- Modelled from the spec: `failures_unusual_hour` of the Window Aggregator
of the missing `audit_log.py` (spec §4.3) — FAILURE events of the principal
in `(now − 15min, now]` whose hour-of-day is outside `[6, 22)`. -/
def failures_unusual_hour (evs : List AuditEvent) (p : String) (now : Nat) :
    Nat :=
  (evs.filter (fun e =>
    e.principal == p && e.status == Status.FAILURE &&
    inWindow e.timestamp now 900 && unusualHour e.timestamp)).length

/-- Modelled from the spec: the short-term failure streak of a principal used
by the Risk Assessor of the missing `audit_log.py` (spec §4.2) — FAILURE
events of the principal in the preceding 15-minute window. -/
def failure_streak (evs : List AuditEvent) (p : String) (now : Nat) : Nat :=
  (evs.filter (fun e =>
    e.principal == p && e.status == Status.FAILURE &&
    inWindow e.timestamp now 900)).length

/-- The FAILURE events in the trailing 60-second window, used by the
enumeration detector (spec §4.3). -/
def window_failures (evs : List AuditEvent) (now : Nat) : List AuditEvent :=
  evs.filter (fun e => e.status == Status.FAILURE && inWindow e.timestamp now 60)

/-- Modelled from the spec: `distinct_usernames_60s` of the Window Aggregator
of the missing `audit_log.py` (spec §4.3) — the distinct principals with
FAILURE events in the preceding 60 seconds. -/
def distinct_usernames_60s (evs : List AuditEvent) (now : Nat) : List String :=
  ((window_failures evs now).map (fun e => e.principal)).dedup

/-- The configurable enumeration threshold, at its example value (spec §4.4:
"configurable threshold, e.g. 5"). -/
def ENUM_THRESHOLD : Nat := 5

/-- Modelled from the spec: the ACCOUNT_ENUMERATION trigger of the missing
`audit_log.py` (spec §4.4) — at least `ENUM_THRESHOLD` distinct principals
with FAILURE events in the last 60 seconds, each contributing exactly one
failure in that window. -/
def enum_condition (evs : List AuditEvent) (now : Nat) : Bool :=
  let ps := distinct_usernames_60s evs now
  decide (ENUM_THRESHOLD ≤ ps.length) &&
  ps.all (fun q =>
    ((window_failures evs now).filter (fun e => e.principal == q)).length == 1)

/-- Modelled from the spec: `assess` of the Risk Assessor of the missing
`audit_log.py` (spec §4.2), taking the event type, the status, and the
principal's prior failure streak in the preceding 15 minutes.  REGISTRATION
SUCCESS is tagged INFO as shown by the user-activity view of
`src/AUDIT_LOGGING.md` (line 218); all other cases follow spec §4.2:
LOGIN/TOTP success is LOW, or MEDIUM after at least one recent failure;
LOGIN/TOTP/LOCKOUT failures escalate with the streak (1st LOW, 2nd–3rd
MEDIUM, 4th+ HIGH, the streak argument counting the prior failures); a
LOCKOUT with status BLOCKED is always CRITICAL. -/
def assess (et : EventType) (s : Status) (streak : Nat) : RiskLevel :=
  match s with
  | Status.BLOCKED => if et = EventType.LOCKOUT then RiskLevel.CRITICAL else RiskLevel.LOW
  | Status.SUCCESS =>
    match et with
    | EventType.REGISTRATION => RiskLevel.INFO
    | EventType.LOGIN => if 1 ≤ streak then RiskLevel.MEDIUM else RiskLevel.LOW
    | EventType.TOTP => if 1 ≤ streak then RiskLevel.MEDIUM else RiskLevel.LOW
    | EventType.LOCKOUT => RiskLevel.LOW
  | Status.FAILURE =>
    match et with
    | EventType.REGISTRATION => RiskLevel.LOW
    | _ =>
      if 3 ≤ streak then RiskLevel.HIGH
      else if 1 ≤ streak then RiskLevel.MEDIUM
      else RiskLevel.LOW

/-- Result of the Alert Manager's raise operation (spec §4.5):
either the freshly created alert or suppression by the dedup rule. -/
inductive RaiseResult
  | created (a : Alert)
  | suppressed
deriving DecidableEq, Repr

/-- Modelled from the spec: the dedup lookup of the Alert Manager of the
missing `audit_log.py` (spec §4.5) — an unresolved alert of the same
`(principal, alert_type)` pair created within the last hour. -/
def dedup_hit (alerts : List Alert) (p : String) (ty : AlertType) (now : Nat) :
    Bool :=
  alerts.any (fun a =>
    a.principal == p && a.alert_type == ty && a.resolved == false &&
    inWindow a.created_at now 3600)

/-- Modelled from the spec: `raise` of the Alert Manager of the missing
`audit_log.py` (spec §4.5) — a no-op returning `suppressed` when the dedup
lookup finds a live alert, otherwise a new unresolved alert is appended. -/
def raiseAlert (st : EngineState) (ty : AlertType) (p : String)
    (sev : RiskLevel) (desc : String) (now : Nat) :
    EngineState × RaiseResult :=
  if dedup_hit st.alerts p ty now then (st, RaiseResult.suppressed)
  else
    let a : Alert :=
      { id := st.next_alert_id, created_at := now, principal := p,
        alert_type := ty, severity := sev, description := desc,
        resolved := false }
    ({ st with alerts := st.alerts ++ [a],
               next_alert_id := st.next_alert_id + 1 },
     RaiseResult.created a)

/-- Raise an alert when `cond` holds, keeping only the state. -/
def tryRaise (st : EngineState) (cond : Bool) (ty : AlertType) (p : String)
    (sev : RiskLevel) (desc : String) (now : Nat) : EngineState :=
  if cond then (raiseAlert st ty p sev desc now).1 else st

/-- Modelled from the spec: the Detection Engine of the missing
`audit_log.py` (spec §4.4; thresholds also in `src/AUDIT_LOGGING.md`), run
synchronously after each ingested event, in the order BRUTE_FORCE →
RAPID_FIRE → UNUSUAL_TIMING → ACCOUNT_ENUMERATION, each subject to dedup. -/
def run_detectors (st : EngineState) (p : String) (now : Nat) : EngineState :=
  let evs := st.events
  let st1 := tryRaise st (decide (5 ≤ failures_15m evs p now))
    AlertType.BRUTE_FORCE p RiskLevel.HIGH
    ("Detected " ++ toString (failures_15m evs p now) ++
      " failed login attempts in 15 minutes") now
  let st2 := tryRaise st1 (decide (10 ≤ attempts_60s evs p now))
    AlertType.RAPID_FIRE p RiskLevel.CRITICAL
    ("Detected " ++ toString (attempts_60s evs p now) ++
      " attempts in 1 minute") now
  let st3 := tryRaise st2 (decide (2 ≤ failures_unusual_hour evs p now))
    AlertType.UNUSUAL_TIMING p RiskLevel.MEDIUM
    ("Multiple failed attempts at unusual hour (" ++
      toString (hourOfDay now) ++ ":00)") now
  let st4 := tryRaise st3 (enum_condition evs now)
    AlertType.ACCOUNT_ENUMERATION "" RiskLevel.MEDIUM
    "Multiple usernames tested" now
  st4

/-- The audit event built by `record_event`: the next store id, the given
fields, and the risk level assessed from the principal's prior failure
streak (spec §4.1, §4.2). -/
def recordedEvent (st : EngineState) (now : Nat) (p : String) (et : EventType)
    (s : Status) (src : String) (details : List (String × String)) :
    AuditEvent :=
  { id := st.next_event_id, timestamp := now, principal := p,
    event_type := et, status := s, source := src, details := details,
    risk_level := assess et s (failure_streak st.events p now) }

/-- Modelled from the spec: `record_event` / `log_event` of the missing
`audit_log.py` (spec §4.1–§4.4, §6) — assess the risk from the prior failure
streak, append the event to the append-only store, then run the detectors;
a LOCKOUT event is logged but does not itself run the detectors (spec §4.4). -/
def record_event (st : EngineState) (now : Nat) (p : String) (et : EventType)
    (s : Status) (src : String) (details : List (String × String)) :
    EngineState :=
  let ev : AuditEvent := recordedEvent st now p et s src details
  let st1 : EngineState :=
    { st with events := st.events ++ [ev],
              next_event_id := st.next_event_id + 1 }
  if et = EventType.LOCKOUT then st1 else run_detectors st1 p now

/-- Modelled from the spec: `resolve` of the Alert Manager of the missing
`audit_log.py` (spec §4.5) — set `resolved := true` on the alert with the
given id, a no-op for already-resolved or nonexistent ids. -/
def resolve (st : EngineState) (alert_id : Nat) : EngineState :=
  { st with alerts := st.alerts.map (fun a =>
      if a.id == alert_id then { a with resolved := true } else a) }

/-- Indexed lookup of a stored event by id (spec §4.1). -/
def get_event (st : EngineState) (i : Nat) : Option AuditEvent :=
  st.events.find? (fun e => e.id == i)

/-- The mutating operations of the engine: event ingestion and alert
resolution (the reporting API is read-only, spec §4.6). -/
inductive Op
  | record (now : Nat) (p : String) (et : EventType) (s : Status)
      (src : String) (details : List (String × String))
  | resolveAlert (i : Nat)

/-- Apply one mutating operation to the engine state. -/
def applyOp (st : EngineState) (op : Op) : EngineState :=
  match op with
  | Op.record now p et s src details => record_event st now p et s src details
  | Op.resolveAlert i => resolve st i

/-- Reachable engine states, together with a lower bound for the current
time: ingestion happens at non-decreasing event timestamps (spec §3:
`timestamp` is non-decreasing with `id`). -/
inductive Reachable : EngineState → Nat → Prop
  | init : Reachable emptyState 0
  | record {st : EngineState} {t : Nat} (now : Nat) (p : String)
      (et : EventType) (s : Status) (src : String)
      (details : List (String × String)) :
      Reachable st t → t ≤ now →
      Reachable (record_event st now p et s src details) now
  | resolveStep {st : EngineState} {t : Nat} (i : Nat) :
      Reachable st t → Reachable (resolve st i) t


/-- Alerts of a given type currently in the store. -/
def alertsOfType (st : EngineState) (ty : AlertType) : List Alert :=
  st.alerts.filter (fun a => a.alert_type == ty)

/-- The alert a successful raise appends. -/
def mkAlert (st : EngineState) (ty : AlertType) (p : String)
    (sev : RiskLevel) (desc : String) (now : Nat) : Alert :=
  { id := st.next_alert_id, created_at := now, principal := p,
    alert_type := ty, severity := sev, description := desc,
    resolved := false }

/-- A sequence of `record_event` calls for one principal: each list entry is
the event's timestamp, type and status (source and details empty). -/
def ingest (st : EngineState) (L : List (Nat × EventType × Status))
    (p : String) : EngineState :=
  L.foldl (fun s q => record_event s q.1 p q.2.1 q.2.2 "" []) st

/-- Apply a sequence of mutating operations. -/
def applyOps (st : EngineState) (ops : List Op) : EngineState :=
  ops.foldl applyOp st

/-- Invariant carried by every reachable state: alert creation times are
bounded by the current time, alert ids are fresh and distinct, and any two
distinct unresolved alerts of the same `(principal, alert_type)` pair are at
least one hour apart. -/
def AlertInv (st : EngineState) (t : Nat) : Prop :=
  (∀ a ∈ st.alerts, a.created_at ≤ t ∧ a.id < st.next_alert_id) ∧
  (st.alerts.map (fun a => a.id)).Nodup ∧
  ∀ a ∈ st.alerts, ∀ b ∈ st.alerts, a.id ≠ b.id →
    a.principal = b.principal → a.alert_type = b.alert_type →
    a.resolved = false → b.resolved = false →
    a.created_at + 3600 ≤ b.created_at ∨ b.created_at + 3600 ≤ a.created_at

/-- A concrete reachable state: five LOGIN failures of "attacker" at 60-second
intervals, which creates one UNUSUAL_TIMING and one BRUTE_FORCE alert. -/
def demoState : EngineState :=
  ingest emptyState
    [(0, EventType.LOGIN, Status.FAILURE),
     (60, EventType.LOGIN, Status.FAILURE),
     (120, EventType.LOGIN, Status.FAILURE),
     (180, EventType.LOGIN, Status.FAILURE),
     (240, EventType.LOGIN, Status.FAILURE)] "attacker"

end AuditLog

namespace AuthCore

/-- C9: `validate_totp` accepts exactly the codes of the current and the
immediately previous 30-second window — the tolerance is one window backwards
(`generate_totp now` or `generate_totp (now - 30)`), so a code valid only for
a different window, in particular only for the next (future) window, is
rejected. -/
theorem validate_totp_current_or_previous (now user_code : Nat) :
    validate_totp now user_code = true ↔
      user_code = generate_totp now ∨ user_code = generate_totp (now - 30) := by
  unfold validate_totp
  split_ifs with h1 h2
  · simp only [true_iff]
    exact Or.inl (beq_iff_eq.mp h1).symm
  · simp only [true_iff]
    exact Or.inr (beq_iff_eq.mp h2).symm
  · simp only [false_iff]
    intro h
    rcases h with h | h
    · exact h1 (beq_iff_eq.mpr h.symm)
    · exact h2 (beq_iff_eq.mpr h.symm)

/-- C10: `validate_login` succeeds exactly when the first 49 characters of the
username are "admin" and the DJB2 hash of the first 49 characters of the
password is 407908580; in particular `validate_login "admin" "admin123"`
succeeds, and characters beyond position 49 of either argument never affect
the result (both inputs are truncated by `secure_strcpy` into 50-byte
buffers). -/
theorem validate_login_spec (username password : List Nat) :
    (validate_login username password = true ↔
      username.take 49 = strBytes "admin" ∧
        djb2_hash (password.take 49) = 407908580)
    ∧ validate_login (strBytes "admin") (strBytes "admin123") = true
    ∧ validate_login username password
        = validate_login (username.take 49) (password.take 49) := by
  refine ⟨?_, by decide, ?_⟩
  · unfold validate_login secure_strcpy STORED_PASSWORD_HASH
    dsimp only
    split_ifs with h1
    · simp only [false_iff, not_and]
      intro hu
      exact absurd hu h1
    · push_neg at h1
      simp [h1, beq_iff_eq]
  · unfold validate_login secure_strcpy
    simp [List.take_take]

end AuthCore

namespace AuditLog

theorem raiseAlert_events (st : EngineState) (ty : AlertType) (p : String)
    (sev : RiskLevel) (desc : String) (now : Nat) :
    ((raiseAlert st ty p sev desc now).1).events = st.events := by
  unfold raiseAlert
  split <;> rfl

theorem tryRaise_events (st : EngineState) (cond : Bool) (ty : AlertType)
    (p : String) (sev : RiskLevel) (desc : String) (now : Nat) :
    (tryRaise st cond ty p sev desc now).events = st.events := by
  unfold tryRaise
  split
  · exact raiseAlert_events st ty p sev desc now
  · rfl

theorem run_detectors_events (st : EngineState) (p : String) (now : Nat) :
    (run_detectors st p now).events = st.events := by
  unfold run_detectors
  simp only [tryRaise_events]

theorem record_event_events (st : EngineState) (now : Nat) (p : String)
    (et : EventType) (s : Status) (src : String)
    (details : List (String × String)) :
    (record_event st now p et s src details).events =
      st.events ++ [recordedEvent st now p et s src details] := by
  unfold record_event
  dsimp only
  split
  · rfl
  · rw [run_detectors_events]

theorem resolve_events (st : EngineState) (i : Nat) :
    (resolve st i).events = st.events := rfl

theorem tryRaise_alerts (st : EngineState) (cond : Bool) (ty : AlertType)
    (p : String) (sev : RiskLevel) (desc : String) (now : Nat) :
    (tryRaise st cond ty p sev desc now).alerts =
      st.alerts ++
        (if cond = true ∧ dedup_hit st.alerts p ty now = false
         then [mkAlert st ty p sev desc now] else []) := by
  unfold tryRaise raiseAlert mkAlert
  cases cond with
  | false => simp
  | true =>
    by_cases h : dedup_hit st.alerts p ty now
    · simp [h]
    · rw [Bool.not_eq_true] at h
      simp [h]

theorem record_event_alerts (st : EngineState) (now : Nat) (p : String)
    (et : EventType) (s : Status) (src : String)
    (details : List (String × String)) (h : et = EventType.LOCKOUT) :
    (record_event st now p et s src details).alerts = st.alerts := by
  unfold record_event
  dsimp only
  rw [if_pos h]

theorem dedup_hit_append (alerts l : List Alert) (p : String)
    (ty : AlertType) (now : Nat) (h : ∀ a ∈ l, a.alert_type ≠ ty) :
    dedup_hit (alerts ++ l) p ty now = dedup_hit alerts p ty now := by
  unfold dedup_hit
  rw [List.any_append]
  have hl : l.any (fun a =>
      a.principal == p && a.alert_type == ty && a.resolved == false &&
      inWindow a.created_at now 3600) = false := by
    rw [List.any_eq_false]
    intro a ha
    simp only [Bool.and_eq_true, beq_iff_eq, not_and]
    intro hcontr
    exact absurd hcontr.1.2 (h a ha)
  rw [hl, Bool.or_false]

theorem dedup_hit_of_none (st : EngineState) (p : String) (ty : AlertType)
    (now : Nat) (h : alertsOfType st ty = []) :
    dedup_hit st.alerts p ty now = false := by
  unfold dedup_hit
  rw [List.any_eq_false]
  intro a ha
  simp only [Bool.and_eq_true, beq_iff_eq, not_and]
  intro hcontr
  have : a ∈ alertsOfType st ty := by
    unfold alertsOfType
    rw [List.mem_filter]
    exact ⟨ha, by simp [hcontr.1.2]⟩
  rw [h] at this
  exact absurd this (List.not_mem_nil a)

theorem alertsOfType_tryRaise_ne (st : EngineState) (cond : Bool)
    (ty' ty : AlertType) (p : String) (sev : RiskLevel) (desc : String)
    (now : Nat) (h : ty' ≠ ty) :
    alertsOfType (tryRaise st cond ty' p sev desc now) ty =
      alertsOfType st ty := by
  unfold alertsOfType
  rw [tryRaise_alerts, List.filter_append]
  have : (if cond = true ∧ dedup_hit st.alerts p ty' now = false
          then [mkAlert st ty' p sev desc now] else []).filter
            (fun a => a.alert_type == ty) = [] := by
    split
    · simp [mkAlert, h]
    · rfl
  rw [this, List.append_nil]

theorem alertsOfType_tryRaise_eq (st : EngineState) (cond : Bool)
    (ty : AlertType) (p : String) (sev : RiskLevel) (desc : String)
    (now : Nat) :
    alertsOfType (tryRaise st cond ty p sev desc now) ty =
      alertsOfType st ty ++
        (if cond = true ∧ dedup_hit st.alerts p ty now = false
         then [mkAlert st ty p sev desc now] else []) := by
  unfold alertsOfType
  rw [tryRaise_alerts, List.filter_append]
  congr 1
  split
  · simp [mkAlert]
  · rfl

end AuditLog

namespace AuditLog

theorem mem_ite_singleton {α : Type} {c : Prop} [Decidable c] {x a : α}
    (h : a ∈ (if c then [x] else [])) : a = x := by
  split at h
  · exact List.mem_singleton.mp h
  · exact absurd h (List.not_mem_nil a)

theorem alertsOfType_run_detectors_BF (st : EngineState) (p : String)
    (now : Nat) :
    ∃ i, alertsOfType (run_detectors st p now) AlertType.BRUTE_FORCE =
      alertsOfType st AlertType.BRUTE_FORCE ++
        (if 5 ≤ failures_15m st.events p now ∧
            dedup_hit st.alerts p AlertType.BRUTE_FORCE now = false
         then [{ id := i, created_at := now, principal := p,
                 alert_type := AlertType.BRUTE_FORCE,
                 severity := RiskLevel.HIGH,
                 description := "Detected " ++
                   toString (failures_15m st.events p now) ++
                   " failed login attempts in 15 minutes",
                 resolved := false }]
         else []) := by
  refine ⟨st.next_alert_id, ?_⟩
  unfold run_detectors
  dsimp only
  rw [alertsOfType_tryRaise_ne _ _ _ _ _ _ _ _ (by decide),
      alertsOfType_tryRaise_ne _ _ _ _ _ _ _ _ (by decide),
      alertsOfType_tryRaise_ne _ _ _ _ _ _ _ _ (by decide),
      alertsOfType_tryRaise_eq]
  simp only [decide_eq_true_eq, mkAlert]

theorem alertsOfType_run_detectors_RF (st : EngineState) (p : String)
    (now : Nat) :
    ∃ i, alertsOfType (run_detectors st p now) AlertType.RAPID_FIRE =
      alertsOfType st AlertType.RAPID_FIRE ++
        (if 10 ≤ attempts_60s st.events p now ∧
            dedup_hit st.alerts p AlertType.RAPID_FIRE now = false
         then [{ id := i, created_at := now, principal := p,
                 alert_type := AlertType.RAPID_FIRE,
                 severity := RiskLevel.CRITICAL,
                 description := "Detected " ++
                   toString (attempts_60s st.events p now) ++
                   " attempts in 1 minute",
                 resolved := false }]
         else []) := by
  refine ⟨(tryRaise st (decide (5 ≤ failures_15m st.events p now))
    AlertType.BRUTE_FORCE p RiskLevel.HIGH
    ("Detected " ++ toString (failures_15m st.events p now) ++
      " failed login attempts in 15 minutes") now).next_alert_id, ?_⟩
  unfold run_detectors
  dsimp only
  rw [alertsOfType_tryRaise_ne _ _ _ _ _ _ _ _ (by decide),
      alertsOfType_tryRaise_ne _ _ _ _ _ _ _ _ (by decide),
      alertsOfType_tryRaise_eq,
      alertsOfType_tryRaise_ne _ _ _ _ _ _ _ _ (by decide)]
  rw [tryRaise_alerts,
      dedup_hit_append _ _ _ _ _ (by
        intro a ha
        split at ha
        · rw [List.mem_singleton] at ha
          subst ha
          simp [mkAlert]
        · exact absurd ha (List.not_mem_nil a))]
  simp only [decide_eq_true_eq, mkAlert]

theorem alertsOfType_run_detectors_UT (st : EngineState) (p : String)
    (now : Nat) :
    ∃ i, alertsOfType (run_detectors st p now) AlertType.UNUSUAL_TIMING =
      alertsOfType st AlertType.UNUSUAL_TIMING ++
        (if 2 ≤ failures_unusual_hour st.events p now ∧
            dedup_hit st.alerts p AlertType.UNUSUAL_TIMING now = false
         then [{ id := i, created_at := now, principal := p,
                 alert_type := AlertType.UNUSUAL_TIMING,
                 severity := RiskLevel.MEDIUM,
                 description := "Multiple failed attempts at unusual hour (" ++
                   toString (hourOfDay now) ++ ":00)",
                 resolved := false }]
         else []) := by
  refine ⟨(tryRaise
      (tryRaise st (decide (5 ≤ failures_15m st.events p now))
        AlertType.BRUTE_FORCE p RiskLevel.HIGH
        ("Detected " ++ toString (failures_15m st.events p now) ++
          " failed login attempts in 15 minutes") now)
      (decide (10 ≤ attempts_60s st.events p now)) AlertType.RAPID_FIRE p
      RiskLevel.CRITICAL
      ("Detected " ++ toString (attempts_60s st.events p now) ++
        " attempts in 1 minute") now).next_alert_id, ?_⟩
  unfold run_detectors
  dsimp only
  rw [alertsOfType_tryRaise_ne _ _ _ _ _ _ _ _ (by decide),
      alertsOfType_tryRaise_eq,
      alertsOfType_tryRaise_ne _ _ _ _ _ _ _ _ (by decide),
      alertsOfType_tryRaise_ne _ _ _ _ _ _ _ _ (by decide)]
  rw [show (tryRaise
      (tryRaise st (decide (5 ≤ failures_15m st.events p now))
        AlertType.BRUTE_FORCE p RiskLevel.HIGH
        ("Detected " ++ toString (failures_15m st.events p now) ++
          " failed login attempts in 15 minutes") now)
      (decide (10 ≤ attempts_60s st.events p now)) AlertType.RAPID_FIRE p
      RiskLevel.CRITICAL
      ("Detected " ++ toString (attempts_60s st.events p now) ++
        " attempts in 1 minute") now).alerts =
      (tryRaise st (decide (5 ≤ failures_15m st.events p now))
        AlertType.BRUTE_FORCE p RiskLevel.HIGH
        ("Detected " ++ toString (failures_15m st.events p now) ++
          " failed login attempts in 15 minutes") now).alerts ++ _
    from tryRaise_alerts _ _ _ _ _ _ _,
    tryRaise_alerts]
  rw [List.append_assoc,
      dedup_hit_append _ _ _ _ _ (by
        intro a ha
        rw [List.mem_append] at ha
        rcases ha with ha | ha
        · rw [mem_ite_singleton ha]
          simp [mkAlert]
        · rw [mem_ite_singleton ha]
          simp [mkAlert])]
  simp only [decide_eq_true_eq, mkAlert]

end AuditLog

namespace AuditLog

theorem recordedEvent_principal (st : EngineState) (now : Nat) (p : String)
    (et : EventType) (s : Status) (src : String)
    (details : List (String × String)) :
    (recordedEvent st now p et s src details).principal = p := rfl

theorem recordedEvent_timestamp (st : EngineState) (now : Nat) (p : String)
    (et : EventType) (s : Status) (src : String)
    (details : List (String × String)) :
    (recordedEvent st now p et s src details).timestamp = now := rfl

theorem recordedEvent_event_type (st : EngineState) (now : Nat) (p : String)
    (et : EventType) (s : Status) (src : String)
    (details : List (String × String)) :
    (recordedEvent st now p et s src details).event_type = et := rfl

theorem recordedEvent_status (st : EngineState) (now : Nat) (p : String)
    (et : EventType) (s : Status) (src : String)
    (details : List (String × String)) :
    (recordedEvent st now p et s src details).status = s := rfl

theorem alertsOfType_record_event_BF (st : EngineState) (now : Nat)
    (p : String) (et : EventType) (s : Status) (src : String)
    (details : List (String × String)) (h : et ≠ EventType.LOCKOUT) :
    ∃ i, alertsOfType (record_event st now p et s src details)
        AlertType.BRUTE_FORCE =
      alertsOfType st AlertType.BRUTE_FORCE ++
        (if 5 ≤ failures_15m
              (st.events ++ [recordedEvent st now p et s src details]) p now ∧
            dedup_hit st.alerts p AlertType.BRUTE_FORCE now = false
         then [{ id := i, created_at := now, principal := p,
                 alert_type := AlertType.BRUTE_FORCE,
                 severity := RiskLevel.HIGH,
                 description := "Detected " ++
                   toString (failures_15m
                     (st.events ++ [recordedEvent st now p et s src details])
                     p now) ++
                   " failed login attempts in 15 minutes",
                 resolved := false }]
         else []) := by
  unfold record_event
  dsimp only
  rw [if_neg h]
  exact alertsOfType_run_detectors_BF
    { st with events := st.events ++ [recordedEvent st now p et s src details],
              next_event_id := st.next_event_id + 1 } p now

theorem alertsOfType_record_event_RF (st : EngineState) (now : Nat)
    (p : String) (et : EventType) (s : Status) (src : String)
    (details : List (String × String)) (h : et ≠ EventType.LOCKOUT) :
    ∃ i, alertsOfType (record_event st now p et s src details)
        AlertType.RAPID_FIRE =
      alertsOfType st AlertType.RAPID_FIRE ++
        (if 10 ≤ attempts_60s
              (st.events ++ [recordedEvent st now p et s src details]) p now ∧
            dedup_hit st.alerts p AlertType.RAPID_FIRE now = false
         then [{ id := i, created_at := now, principal := p,
                 alert_type := AlertType.RAPID_FIRE,
                 severity := RiskLevel.CRITICAL,
                 description := "Detected " ++
                   toString (attempts_60s
                     (st.events ++ [recordedEvent st now p et s src details])
                     p now) ++
                   " attempts in 1 minute",
                 resolved := false }]
         else []) := by
  unfold record_event
  dsimp only
  rw [if_neg h]
  exact alertsOfType_run_detectors_RF
    { st with events := st.events ++ [recordedEvent st now p et s src details],
              next_event_id := st.next_event_id + 1 } p now

theorem alertsOfType_record_event_UT (st : EngineState) (now : Nat)
    (p : String) (et : EventType) (s : Status) (src : String)
    (details : List (String × String)) (h : et ≠ EventType.LOCKOUT) :
    ∃ i, alertsOfType (record_event st now p et s src details)
        AlertType.UNUSUAL_TIMING =
      alertsOfType st AlertType.UNUSUAL_TIMING ++
        (if 2 ≤ failures_unusual_hour
              (st.events ++ [recordedEvent st now p et s src details]) p now ∧
            dedup_hit st.alerts p AlertType.UNUSUAL_TIMING now = false
         then [{ id := i, created_at := now, principal := p,
                 alert_type := AlertType.UNUSUAL_TIMING,
                 severity := RiskLevel.MEDIUM,
                 description := "Multiple failed attempts at unusual hour (" ++
                   toString (hourOfDay now) ++ ":00)",
                 resolved := false }]
         else []) := by
  unfold record_event
  dsimp only
  rw [if_neg h]
  exact alertsOfType_run_detectors_UT
    { st with events := st.events ++ [recordedEvent st now p et s src details],
              next_event_id := st.next_event_id + 1 } p now

theorem failures_15m_eq_length (evs : List AuditEvent) (p : String)
    (now : Nat)
    (h : ∀ e ∈ evs, e.principal = p ∧ e.status = Status.FAILURE ∧
      (e.event_type = EventType.LOGIN ∨ e.event_type = EventType.TOTP) ∧
      e.timestamp ≤ now ∧ now < e.timestamp + 900) :
    failures_15m evs p now = evs.length := by
  unfold failures_15m
  rw [List.filter_eq_self.mpr]
  intro e he
  obtain ⟨hp, hs, het, hle, hlt⟩ := h e he
  simp only [Bool.and_eq_true, Bool.or_eq_true, beq_iff_eq, inWindow,
    decide_eq_true_eq]
  exact ⟨⟨⟨hp, hs⟩, by rcases het with het | het <;> simp [het]⟩, hle, hlt⟩

theorem attempts_60s_eq_length (evs : List AuditEvent) (p : String)
    (now : Nat)
    (h : ∀ e ∈ evs, e.principal = p ∧ e.timestamp ≤ now ∧
      now < e.timestamp + 60) :
    attempts_60s evs p now = evs.length := by
  unfold attempts_60s
  rw [List.filter_eq_self.mpr]
  intro e he
  obtain ⟨hp, hle, hlt⟩ := h e he
  simp only [Bool.and_eq_true, beq_iff_eq, inWindow, decide_eq_true_eq]
  exact ⟨hp, hle, hlt⟩

theorem failures_unusual_hour_eq_length (evs : List AuditEvent) (p : String)
    (now : Nat)
    (h : ∀ e ∈ evs, e.principal = p ∧ e.status = Status.FAILURE ∧
      e.timestamp ≤ now ∧ now < e.timestamp + 900 ∧
      unusualHour e.timestamp = true) :
    failures_unusual_hour evs p now = evs.length := by
  unfold failures_unusual_hour
  rw [List.filter_eq_self.mpr]
  intro e he
  obtain ⟨hp, hs, hle, hlt, hu⟩ := h e he
  simp only [Bool.and_eq_true, beq_iff_eq, inWindow, decide_eq_true_eq]
  exact ⟨⟨⟨hp, hs⟩, hle, hlt⟩, hu⟩

theorem failures_15m_le_length (evs : List AuditEvent) (p : String)
    (now : Nat) : failures_15m evs p now ≤ evs.length :=
  List.length_filter_le _ evs

theorem attempts_60s_le_length (evs : List AuditEvent) (p : String)
    (now : Nat) : attempts_60s evs p now ≤ evs.length :=
  List.length_filter_le _ evs

theorem failures_unusual_hour_le_length (evs : List AuditEvent) (p : String)
    (now : Nat) : failures_unusual_hour evs p now ≤ evs.length :=
  List.length_filter_le _ evs

end AuditLog

namespace AuditLog

theorem ingest_nil (st : EngineState) (p : String) :
    ingest st [] p = st := rfl

theorem ingest_cons (st : EngineState) (q : Nat × EventType × Status)
    (L : List (Nat × EventType × Status)) (p : String) :
    ingest st (q :: L) p =
      ingest (record_event st q.1 p q.2.1 q.2.2 "" []) L p := rfl

theorem ingest_events_shape (p : String) :
    ∀ (L : List (Nat × EventType × Status)) (st : EngineState),
    (ingest st L p).events.map
        (fun e => (e.principal, e.timestamp, e.event_type, e.status)) =
      st.events.map
        (fun e => (e.principal, e.timestamp, e.event_type, e.status)) ++
        L.map (fun q => (p, q.1, q.2.1, q.2.2)) := by
  intro L
  induction L with
  | nil => intro st; simp [ingest_nil]
  | cons q L ih =>
    intro st
    rw [ingest_cons, ih, record_event_events, List.map_append,
      List.map_cons, List.map_nil, List.map_cons, List.append_assoc]
    rfl

theorem ingest_events_length (p : String)
    (L : List (Nat × EventType × Status)) (st : EngineState) :
    (ingest st L p).events.length = st.events.length + L.length := by
  have h := ingest_events_shape p L st
  have := congrArg List.length h
  simpa using this

theorem ingest_events_mem (p : String)
    (L : List (Nat × EventType × Status)) (e : AuditEvent)
    (he : e ∈ (ingest emptyState L p).events) :
    ∃ q ∈ L, e.principal = p ∧ e.timestamp = q.1 ∧
      e.event_type = q.2.1 ∧ e.status = q.2.2 := by
  have h := ingest_events_shape p L emptyState
  have hmem : (e.principal, e.timestamp, e.event_type, e.status) ∈
      (ingest emptyState L p).events.map
        (fun e => (e.principal, e.timestamp, e.event_type, e.status)) :=
    List.mem_map_of_mem _ he
  rw [h] at hmem
  simp only [emptyState, List.map_nil, List.nil_append, List.mem_map] at hmem
  obtain ⟨q, hq, heq⟩ := hmem
  rw [Prod.mk.injEq, Prod.mk.injEq, Prod.mk.injEq] at heq
  obtain ⟨hp, ht, hty, hs⟩ := heq
  exact ⟨q, hq, hp.symm, ht.symm, hty.symm, hs.symm⟩

end AuditLog

namespace AuditLog

theorem bf_step_silent (st : EngineState) (now : Nat) (p : String)
    (et : EventType) (s : Status) (src : String)
    (details : List (String × String)) (h : st.events.length + 1 < 5) :
    alertsOfType (record_event st now p et s src details)
        AlertType.BRUTE_FORCE =
      alertsOfType st AlertType.BRUTE_FORCE := by
  by_cases hlk : et = EventType.LOCKOUT
  · unfold alertsOfType
    rw [record_event_alerts _ _ _ _ _ _ _ hlk]
  · obtain ⟨i, hi⟩ := alertsOfType_record_event_BF st now p et s src details hlk
    rw [hi, if_neg, List.append_nil]
    rintro ⟨hc, -⟩
    have hle := failures_15m_le_length
      (st.events ++ [recordedEvent st now p et s src details]) p now
    rw [List.length_append, List.length_singleton] at hle
    omega

theorem rf_step_silent (st : EngineState) (now : Nat) (p : String)
    (et : EventType) (s : Status) (src : String)
    (details : List (String × String)) (h : st.events.length + 1 < 10) :
    alertsOfType (record_event st now p et s src details)
        AlertType.RAPID_FIRE =
      alertsOfType st AlertType.RAPID_FIRE := by
  by_cases hlk : et = EventType.LOCKOUT
  · unfold alertsOfType
    rw [record_event_alerts _ _ _ _ _ _ _ hlk]
  · obtain ⟨i, hi⟩ := alertsOfType_record_event_RF st now p et s src details hlk
    rw [hi, if_neg, List.append_nil]
    rintro ⟨hc, -⟩
    have hle := attempts_60s_le_length
      (st.events ++ [recordedEvent st now p et s src details]) p now
    rw [List.length_append, List.length_singleton] at hle
    omega

theorem ut_step_silent (st : EngineState) (now : Nat) (p : String)
    (et : EventType) (s : Status) (src : String)
    (details : List (String × String)) (h : st.events.length + 1 < 2) :
    alertsOfType (record_event st now p et s src details)
        AlertType.UNUSUAL_TIMING =
      alertsOfType st AlertType.UNUSUAL_TIMING := by
  by_cases hlk : et = EventType.LOCKOUT
  · unfold alertsOfType
    rw [record_event_alerts _ _ _ _ _ _ _ hlk]
  · obtain ⟨i, hi⟩ := alertsOfType_record_event_UT st now p et s src details hlk
    rw [hi, if_neg, List.append_nil]
    rintro ⟨hc, -⟩
    have hle := failures_unusual_hour_le_length
      (st.events ++ [recordedEvent st now p et s src details]) p now
    rw [List.length_append, List.length_singleton] at hle
    omega

theorem ingest_bf_silent (p : String) :
    ∀ (L : List (Nat × EventType × Status)) (st : EngineState),
    st.events.length + L.length < 5 →
    alertsOfType (ingest st L p) AlertType.BRUTE_FORCE =
      alertsOfType st AlertType.BRUTE_FORCE := by
  intro L
  induction L with
  | nil => intro st _; rw [ingest_nil]
  | cons q L ih =>
    intro st h
    rw [List.length_cons] at h
    rw [ingest_cons, ih _ (by
      rw [record_event_events, List.length_append, List.length_singleton]
      omega)]
    exact bf_step_silent st q.1 p q.2.1 q.2.2 "" [] (by omega)

theorem ingest_rf_silent (p : String) :
    ∀ (L : List (Nat × EventType × Status)) (st : EngineState),
    st.events.length + L.length < 10 →
    alertsOfType (ingest st L p) AlertType.RAPID_FIRE =
      alertsOfType st AlertType.RAPID_FIRE := by
  intro L
  induction L with
  | nil => intro st _; rw [ingest_nil]
  | cons q L ih =>
    intro st h
    rw [List.length_cons] at h
    rw [ingest_cons, ih _ (by
      rw [record_event_events, List.length_append, List.length_singleton]
      omega)]
    exact rf_step_silent st q.1 p q.2.1 q.2.2 "" [] (by omega)

end AuditLog

namespace AuditLog

theorem ingest_append (st : EngineState) (L M : List (Nat × EventType × Status))
    (p : String) :
    ingest st (L ++ M) p = ingest (ingest st L p) M p := by
  unfold ingest
  rw [List.foldl_append]

theorem not_lockout_of_login_or_totp {e : EventType}
    (h : e = EventType.LOGIN ∨ e = EventType.TOTP) :
    e ≠ EventType.LOCKOUT := by
  rcases h with h | h <;> simp [h]

/-- C1: for every principal, four LOGIN/TOTP FAILURE events inside a common
15-minute window produce no BRUTE_FORCE alert, and ingesting the fifth such
failure within the window produces exactly one BRUTE_FORCE alert, with
severity HIGH, for that principal. -/
theorem brute_force_threshold (p : String) (t1 t2 t3 t4 t5 : Nat)
    (e1 e2 e3 e4 e5 : EventType)
    (he1 : e1 = EventType.LOGIN ∨ e1 = EventType.TOTP)
    (he2 : e2 = EventType.LOGIN ∨ e2 = EventType.TOTP)
    (he3 : e3 = EventType.LOGIN ∨ e3 = EventType.TOTP)
    (he4 : e4 = EventType.LOGIN ∨ e4 = EventType.TOTP)
    (he5 : e5 = EventType.LOGIN ∨ e5 = EventType.TOTP)
    (o12 : t1 ≤ t2) (o23 : t2 ≤ t3) (o34 : t3 ≤ t4) (o45 : t4 ≤ t5)
    (hwin : t5 < t1 + 900) :
    alertsOfType (ingest emptyState
        [(t1, e1, Status.FAILURE), (t2, e2, Status.FAILURE),
         (t3, e3, Status.FAILURE), (t4, e4, Status.FAILURE)] p)
      AlertType.BRUTE_FORCE = [] ∧
    (alertsOfType (ingest emptyState
        [(t1, e1, Status.FAILURE), (t2, e2, Status.FAILURE),
         (t3, e3, Status.FAILURE), (t4, e4, Status.FAILURE),
         (t5, e5, Status.FAILURE)] p)
      AlertType.BRUTE_FORCE).length = 1 ∧
    ∀ a ∈ alertsOfType (ingest emptyState
        [(t1, e1, Status.FAILURE), (t2, e2, Status.FAILURE),
         (t3, e3, Status.FAILURE), (t4, e4, Status.FAILURE),
         (t5, e5, Status.FAILURE)] p)
      AlertType.BRUTE_FORCE,
      a.principal = p ∧ a.severity = RiskLevel.HIGH ∧
      a.created_at = t5 ∧ a.resolved = false := by
  set s4 := ingest emptyState
    [(t1, e1, Status.FAILURE), (t2, e2, Status.FAILURE),
     (t3, e3, Status.FAILURE), (t4, e4, Status.FAILURE)] p with hs4
  have h4 : alertsOfType s4 AlertType.BRUTE_FORCE = [] := by
    rw [hs4, ingest_bf_silent p _ emptyState (by simp [emptyState])]
    rfl
  have hsplit : ingest emptyState
      [(t1, e1, Status.FAILURE), (t2, e2, Status.FAILURE),
       (t3, e3, Status.FAILURE), (t4, e4, Status.FAILURE),
       (t5, e5, Status.FAILURE)] p =
      record_event s4 t5 p e5 Status.FAILURE "" [] := by
    rw [hs4]
    rfl
  have hlen4 : s4.events.length = 4 := by
    rw [hs4, ingest_events_length]
    rfl
  have hall : ∀ e ∈ s4.events ++
      [recordedEvent s4 t5 p e5 Status.FAILURE "" []],
      e.principal = p ∧ e.status = Status.FAILURE ∧
      (e.event_type = EventType.LOGIN ∨ e.event_type = EventType.TOTP) ∧
      e.timestamp ≤ t5 ∧ t5 < e.timestamp + 900 := by
    intro e he
    rw [List.mem_append, List.mem_singleton] at he
    rcases he with he | rfl
    · obtain ⟨q, hqL, hp, ht, hty, hs⟩ := ingest_events_mem p _ e (hs4 ▸ he)
      simp only [List.mem_cons, List.not_mem_nil, or_false] at hqL
      rcases hqL with rfl | rfl | rfl | rfl
      · exact ⟨hp, hs, by rw [hty]; exact he1, by rw [ht]; omega,
          by rw [ht]; omega⟩
      · exact ⟨hp, hs, by rw [hty]; exact he2, by rw [ht]; omega,
          by rw [ht]; omega⟩
      · exact ⟨hp, hs, by rw [hty]; exact he3, by rw [ht]; omega,
          by rw [ht]; omega⟩
      · exact ⟨hp, hs, by rw [hty]; exact he4, by rw [ht]; omega,
          by rw [ht]; omega⟩
    · exact ⟨rfl, rfl, he5, le_refl t5, by show t5 < t5 + 900; omega⟩
  have hcount : failures_15m
      (s4.events ++ [recordedEvent s4 t5 p e5 Status.FAILURE "" []]) p t5 =
      5 := by
    rw [failures_15m_eq_length _ _ _ hall, List.length_append,
      List.length_singleton, hlen4]
  have hdedup : dedup_hit s4.alerts p AlertType.BRUTE_FORCE t5 = false :=
    dedup_hit_of_none s4 p AlertType.BRUTE_FORCE t5 h4
  obtain ⟨i, hi⟩ := alertsOfType_record_event_BF s4 t5 p e5 Status.FAILURE
    "" [] (not_lockout_of_login_or_totp he5)
  rw [if_pos ⟨by rw [hcount], hdedup⟩, h4, List.nil_append] at hi
  rw [hsplit]
  refine ⟨h4, ?_, ?_⟩
  · rw [hi, List.length_singleton]
  · intro a ha
    rw [hi, List.mem_singleton] at ha
    subst ha
    exact ⟨rfl, rfl, rfl, rfl⟩

end AuditLog

namespace AuditLog

/-- C4: for every principal, two FAILURE events inside a common 15-minute
window whose local hour-of-day is outside `[6, 22)` trigger exactly one
UNUSUAL_TIMING alert, with severity MEDIUM, while one such failure triggers
none. -/
theorem unusual_timing_threshold (p : String) (t1 t2 : Nat)
    (e1 e2 : EventType)
    (_he1 : e1 ≠ EventType.LOCKOUT) (he2 : e2 ≠ EventType.LOCKOUT)
    (o12 : t1 ≤ t2) (hwin : t2 < t1 + 900)
    (hu1 : unusualHour t1 = true) (hu2 : unusualHour t2 = true) :
    alertsOfType (ingest emptyState [(t1, e1, Status.FAILURE)] p)
      AlertType.UNUSUAL_TIMING = [] ∧
    (alertsOfType (ingest emptyState
        [(t1, e1, Status.FAILURE), (t2, e2, Status.FAILURE)] p)
      AlertType.UNUSUAL_TIMING).length = 1 ∧
    ∀ a ∈ alertsOfType (ingest emptyState
        [(t1, e1, Status.FAILURE), (t2, e2, Status.FAILURE)] p)
      AlertType.UNUSUAL_TIMING,
      a.principal = p ∧ a.severity = RiskLevel.MEDIUM ∧
      a.created_at = t2 ∧ a.resolved = false := by
  set s1 := ingest emptyState [(t1, e1, Status.FAILURE)] p with hs1
  have h1 : alertsOfType s1 AlertType.UNUSUAL_TIMING = [] := by
    rw [hs1, show ingest emptyState [(t1, e1, Status.FAILURE)] p =
      record_event emptyState t1 p e1 Status.FAILURE "" [] from rfl,
      ut_step_silent _ _ _ _ _ _ _ (by simp [emptyState])]
    rfl
  have hsplit : ingest emptyState
      [(t1, e1, Status.FAILURE), (t2, e2, Status.FAILURE)] p =
      record_event s1 t2 p e2 Status.FAILURE "" [] := by
    rw [hs1]
    rfl
  have hlen1 : s1.events.length = 1 := by
    rw [hs1, ingest_events_length]
    rfl
  have hall : ∀ e ∈ s1.events ++
      [recordedEvent s1 t2 p e2 Status.FAILURE "" []],
      e.principal = p ∧ e.status = Status.FAILURE ∧
      e.timestamp ≤ t2 ∧ t2 < e.timestamp + 900 ∧
      unusualHour e.timestamp = true := by
    intro e he
    rw [List.mem_append, List.mem_singleton] at he
    rcases he with he | rfl
    · obtain ⟨q, hqL, hp, ht, hty, hs⟩ := ingest_events_mem p _ e (hs1 ▸ he)
      simp only [List.mem_cons, List.not_mem_nil, or_false] at hqL
      subst hqL
      exact ⟨hp, hs, by rw [ht]; omega, by rw [ht]; omega,
        by rw [ht]; exact hu1⟩
    · exact ⟨rfl, rfl, le_refl t2, by show t2 < t2 + 900; omega, hu2⟩
  have hcount : failures_unusual_hour
      (s1.events ++ [recordedEvent s1 t2 p e2 Status.FAILURE "" []]) p t2 =
      2 := by
    rw [failures_unusual_hour_eq_length _ _ _ hall, List.length_append,
      List.length_singleton, hlen1]
  have hdedup : dedup_hit s1.alerts p AlertType.UNUSUAL_TIMING t2 = false :=
    dedup_hit_of_none s1 p AlertType.UNUSUAL_TIMING t2 h1
  obtain ⟨i, hi⟩ := alertsOfType_record_event_UT s1 t2 p e2 Status.FAILURE
    "" [] he2
  rw [if_pos ⟨by rw [hcount], hdedup⟩, h1, List.nil_append] at hi
  rw [hsplit]
  refine ⟨h1, ?_, ?_⟩
  · rw [hi, List.length_singleton]
  · intro a ha
    rw [hi, List.mem_singleton] at ha
    subst ha
    exact ⟨rfl, rfl, rfl, rfl⟩

/-- C5: for every principal, ten events with any mixture of statuses inside a
common 60-second window trigger exactly one RAPID_FIRE alert, with severity
CRITICAL, independently of the BRUTE_FORCE condition. -/
theorem rapid_fire_threshold (p : String)
    (t1 t2 t3 t4 t5 t6 t7 t8 t9 t10 : Nat)
    (e1 e2 e3 e4 e5 e6 e7 e8 e9 e10 : EventType)
    (s1 s2 s3 s4 s5 s6 s7 s8 s9 s10 : Status)
    (he10 : e10 ≠ EventType.LOCKOUT)
    (o1 : t1 ≤ t2) (o2 : t2 ≤ t3) (o3 : t3 ≤ t4) (o4 : t4 ≤ t5)
    (o5 : t5 ≤ t6) (o6 : t6 ≤ t7) (o7 : t7 ≤ t8) (o8 : t8 ≤ t9)
    (o9 : t9 ≤ t10) (hwin : t10 < t1 + 60) :
    (alertsOfType (ingest emptyState
        [(t1, e1, s1), (t2, e2, s2), (t3, e3, s3), (t4, e4, s4),
         (t5, e5, s5), (t6, e6, s6), (t7, e7, s7), (t8, e8, s8),
         (t9, e9, s9), (t10, e10, s10)] p)
      AlertType.RAPID_FIRE).length = 1 ∧
    ∀ a ∈ alertsOfType (ingest emptyState
        [(t1, e1, s1), (t2, e2, s2), (t3, e3, s3), (t4, e4, s4),
         (t5, e5, s5), (t6, e6, s6), (t7, e7, s7), (t8, e8, s8),
         (t9, e9, s9), (t10, e10, s10)] p)
      AlertType.RAPID_FIRE,
      a.principal = p ∧ a.severity = RiskLevel.CRITICAL ∧
      a.created_at = t10 ∧ a.resolved = false := by
  set s9st := ingest emptyState
    [(t1, e1, s1), (t2, e2, s2), (t3, e3, s3), (t4, e4, s4),
     (t5, e5, s5), (t6, e6, s6), (t7, e7, s7), (t8, e8, s8),
     (t9, e9, s9)] p with hs9
  have h9 : alertsOfType s9st AlertType.RAPID_FIRE = [] := by
    rw [hs9, ingest_rf_silent p _ emptyState (by simp [emptyState])]
    rfl
  have hsplit : ingest emptyState
      [(t1, e1, s1), (t2, e2, s2), (t3, e3, s3), (t4, e4, s4),
       (t5, e5, s5), (t6, e6, s6), (t7, e7, s7), (t8, e8, s8),
       (t9, e9, s9), (t10, e10, s10)] p =
      record_event s9st t10 p e10 s10 "" [] := by
    rw [hs9]
    rfl
  have hlen9 : s9st.events.length = 9 := by
    rw [hs9, ingest_events_length]
    rfl
  have hall : ∀ e ∈ s9st.events ++
      [recordedEvent s9st t10 p e10 s10 "" []],
      e.principal = p ∧ e.timestamp ≤ t10 ∧ t10 < e.timestamp + 60 := by
    intro e he
    rw [List.mem_append, List.mem_singleton] at he
    rcases he with he | rfl
    · obtain ⟨q, hqL, hp, ht, hty, hst⟩ := ingest_events_mem p _ e (hs9 ▸ he)
      simp only [List.mem_cons, List.not_mem_nil, or_false] at hqL
      rcases hqL with rfl | rfl | rfl | rfl | rfl | rfl | rfl | rfl | rfl <;>
        exact ⟨hp, by rw [ht]; omega, by rw [ht]; omega⟩
    · exact ⟨rfl, le_refl t10, by show t10 < t10 + 60; omega⟩
  have hcount : attempts_60s
      (s9st.events ++ [recordedEvent s9st t10 p e10 s10 "" []]) p t10 =
      10 := by
    rw [attempts_60s_eq_length _ _ _ hall, List.length_append,
      List.length_singleton, hlen9]
  have hdedup : dedup_hit s9st.alerts p AlertType.RAPID_FIRE t10 = false :=
    dedup_hit_of_none s9st p AlertType.RAPID_FIRE t10 h9
  obtain ⟨i, hi⟩ := alertsOfType_record_event_RF s9st t10 p e10 s10
    "" [] he10
  rw [if_pos ⟨by rw [hcount], hdedup⟩, h9, List.nil_append] at hi
  rw [hsplit]
  refine ⟨?_, ?_⟩
  · rw [hi, List.length_singleton]
  · intro a ha
    rw [hi, List.mem_singleton] at ha
    subst ha
    exact ⟨rfl, rfl, rfl, rfl⟩

end AuditLog

namespace AuditLog

/-- C3: for every principal and every LOGIN, TOTP or LOCKOUT event with
status FAILURE, the risk level assigned at write time is determined by the
principal's failure streak inside the preceding 15-minute window: the first
failure is LOW, the second and third are MEDIUM, and the fourth and later
are HIGH. -/
theorem risk_level_failure_streak (st : EngineState) (now : Nat)
    (p src : String) (details : List (String × String)) (et : EventType)
    (h : et = EventType.LOGIN ∨ et = EventType.TOTP ∨
      et = EventType.LOCKOUT) :
    (record_event st now p et Status.FAILURE src details).events =
      st.events ++
        [{ id := st.next_event_id, timestamp := now, principal := p,
           event_type := et, status := Status.FAILURE, source := src,
           details := details,
           risk_level :=
             if failure_streak st.events p now = 0 then RiskLevel.LOW
             else if failure_streak st.events p now ≤ 2 then RiskLevel.MEDIUM
             else RiskLevel.HIGH }] := by
  have hassess : assess et Status.FAILURE (failure_streak st.events p now) =
      (if failure_streak st.events p now = 0 then RiskLevel.LOW
       else if failure_streak st.events p now ≤ 2 then RiskLevel.MEDIUM
       else RiskLevel.HIGH) := by
    rcases h with rfl | rfl | rfl <;>
      · simp only [assess]
        split_ifs <;> first | rfl | omega
  rw [record_event_events]
  unfold recordedEvent
  rw [hassess]

/-- C7 evaluation: ingesting a successful REGISTRATION stores an event whose
risk tag is INFO, which is not among LOW, MEDIUM, HIGH, CRITICAL — matching
the user-activity view of `src/AUDIT_LOGGING.md` (line 218) and
contradicting both the schema comment of that document and the spec. -/
theorem registration_success_risk_info :
    ((record_event emptyState 1734000000 "john_doe" EventType.REGISTRATION
        Status.SUCCESS "" []).events.map (fun e => e.risk_level)) =
      [RiskLevel.INFO] ∧
    RiskLevel.INFO ∉ [RiskLevel.LOW, RiskLevel.MEDIUM, RiskLevel.HIGH,
      RiskLevel.CRITICAL] := by
  constructor
  · rw [record_event_events]
    rfl
  · decide

/-- C8: `resolve` marks the addressed alert resolved, is idempotent, and is
total — resolving a nonexistent id (and, by idempotence, an already-resolved
alert) leaves the store unchanged and raises no error. -/
theorem resolve_idempotent_total (st : EngineState) (i : Nat) :
    (∀ a ∈ (resolve st i).alerts, a.id = i → a.resolved = true) ∧
    resolve (resolve st i) i = resolve st i ∧
    ((∀ a ∈ st.alerts, a.id ≠ i) → resolve st i = st) := by
  refine ⟨?_, ?_, ?_⟩
  · intro a ha hid
    unfold resolve at ha
    dsimp only at ha
    rw [List.mem_map] at ha
    obtain ⟨b, hb, rfl⟩ := ha
    split_ifs at hid ⊢ with h'
    · rfl
    · exact absurd hid (by simpa using h')
  · unfold resolve
    dsimp only
    congr 1
    rw [List.map_map]
    apply List.map_congr_left
    intro a _
    simp only [Function.comp_apply]
    by_cases h' : (a.id == i) = true
    · rw [if_pos h', if_pos h']
    · rw [if_neg h', if_neg h']
  · intro h
    unfold resolve
    have heq : st.alerts.map (fun a =>
        if a.id == i then { a with resolved := true } else a) =
        st.alerts := by
      rw [show st.alerts = st.alerts.map (fun a => a) from
        (List.map_id' st.alerts).symm]
      rw [List.map_map]
      apply List.map_congr_left
      intro a ha
      simp only [Function.comp_apply]
      rw [if_neg (by simpa using h a ha)]
    rw [heq]

theorem find?_append_some {α : Type} {l₁ : List α} (l₂ : List α)
    {pr : α → Bool} {a : α} (h : l₁.find? pr = some a) :
    (l₁ ++ l₂).find? pr = some a := by
  induction l₁ with
  | nil => simp [List.find?] at h
  | cons x l ih =>
    rw [List.cons_append]
    by_cases hx : pr x = true
    · rw [List.find?_cons_of_pos _ hx] at h
      rw [List.find?_cons_of_pos _ hx]
      exact h
    · rw [List.find?_cons_of_neg _ hx] at h
      rw [List.find?_cons_of_neg _ hx]
      exact ih h

theorem applyOp_events_append (st : EngineState) (op : Op) :
    ∃ tl, (applyOp st op).events = st.events ++ tl := by
  cases op with
  | record now p et s src details =>
    exact ⟨[recordedEvent st now p et s src details],
      record_event_events st now p et s src details⟩
  | resolveAlert i =>
    exact ⟨[], by rw [List.append_nil]; rfl⟩

/-- C6: the event store is append-only — across any sequence of operations,
the events present before are still present, unchanged and in place,
afterwards, and looking up the same event id again returns the identical
stored event. -/
theorem event_store_append_only (st : EngineState) (ops : List Op) :
    (∃ tl, (applyOps st ops).events = st.events ++ tl) ∧
    ∀ i e, get_event st i = some e → get_event (applyOps st ops) i = some e := by
  induction ops generalizing st with
  | nil => exact ⟨⟨[], (List.append_nil _).symm⟩, fun i e he => he⟩
  | cons op ops ih =>
    have hstep := applyOp_events_append st op
    obtain ⟨tl1, htl1⟩ := hstep
    obtain ⟨⟨tl2, htl2⟩, hget⟩ := ih (applyOp st op)
    constructor
    · refine ⟨tl1 ++ tl2, ?_⟩
      show (applyOps (applyOp st op) ops).events = _
      rw [htl2, htl1, List.append_assoc]
    · intro i e he
      show get_event (applyOps (applyOp st op) ops) i = some e
      apply hget
      unfold get_event at he ⊢
      rw [htl1]
      exact find?_append_some tl1 he

end AuditLog

namespace AuditLog

theorem alertInv_raiseAlert (st : EngineState) (ty : AlertType) (p : String)
    (sev : RiskLevel) (desc : String) (now : Nat) (h : AlertInv st now) :
    AlertInv (raiseAlert st ty p sev desc now).1 now := by
  obtain ⟨hK, hN, hJ⟩ := h
  unfold raiseAlert
  by_cases hd : dedup_hit st.alerts p ty now
  · rw [if_pos hd]
    exact ⟨hK, hN, hJ⟩
  · rw [Bool.not_eq_true] at hd
    rw [if_neg (by rw [hd]; exact Bool.false_ne_true)]
    dsimp only
    have hdf : ∀ c ∈ st.alerts, c.principal = p → c.alert_type = ty →
        c.resolved = false →
        ¬(c.created_at ≤ now ∧ now < c.created_at + 3600) := by
      intro c hc hcp hct hcr hcontra
      have : dedup_hit st.alerts p ty now = true := by
        unfold dedup_hit
        rw [List.any_eq_true]
        refine ⟨c, hc, ?_⟩
        simp only [Bool.and_eq_true, beq_iff_eq, inWindow, decide_eq_true_eq]
        exact ⟨⟨⟨hcp, hct⟩, hcr⟩, hcontra.1, hcontra.2⟩
      rw [hd] at this
      exact Bool.false_ne_true this
    refine ⟨?_, ?_, ?_⟩
    · intro a ha
      rw [List.mem_append, List.mem_singleton] at ha
      rcases ha with ha | rfl
      · obtain ⟨h1, h2⟩ := hK a ha
        refine ⟨h1, ?_⟩
        show a.id < st.next_alert_id + 1
        omega
      · exact ⟨le_refl now, Nat.lt_succ_self _⟩
    · rw [List.map_append, List.nodup_append]
      refine ⟨hN, List.nodup_singleton _, ?_⟩
      intro x hx
      rw [List.mem_map] at hx
      obtain ⟨a, ha, rfl⟩ := hx
      have h2 := (hK a ha).2
      simp only [List.map_cons, List.map_nil, List.mem_singleton]
      intro hcontr
      have hcontr2 : a.id = st.next_alert_id := hcontr
      omega
    · intro a ha b hb hid hp hty hra hrb
      rw [List.mem_append, List.mem_singleton] at ha hb
      rcases ha with ha | rfl
      · rcases hb with hb | rfl
        · exact hJ a ha b hb hid hp hty hra hrb
        · left
          show a.created_at + 3600 ≤ now
          have hc := (hK a ha).1
          by_contra hlt
          exact hdf a ha hp hty hra ⟨hc, by omega⟩
      · rcases hb with hb | rfl
        · right
          show b.created_at + 3600 ≤ now
          have hc := (hK b hb).1
          by_contra hlt
          exact hdf b hb hp.symm hty.symm hrb ⟨hc, by omega⟩
        · exact absurd rfl hid

theorem alertInv_tryRaise (st : EngineState) (cond : Bool) (ty : AlertType)
    (p : String) (sev : RiskLevel) (desc : String) (now : Nat)
    (h : AlertInv st now) :
    AlertInv (tryRaise st cond ty p sev desc now) now := by
  unfold tryRaise
  split
  · exact alertInv_raiseAlert st ty p sev desc now h
  · exact h

theorem alertInv_run_detectors (st : EngineState) (p : String) (now : Nat)
    (h : AlertInv st now) : AlertInv (run_detectors st p now) now := by
  unfold run_detectors
  dsimp only
  exact alertInv_tryRaise _ _ _ _ _ _ _
    (alertInv_tryRaise _ _ _ _ _ _ _
      (alertInv_tryRaise _ _ _ _ _ _ _
        (alertInv_tryRaise _ _ _ _ _ _ _ h)))

theorem alertInv_record_event (st : EngineState) (t now : Nat) (p : String)
    (et : EventType) (s : Status) (src : String)
    (details : List (String × String)) (hle : t ≤ now)
    (h : AlertInv st t) :
    AlertInv (record_event st now p et s src details) now := by
  obtain ⟨hK, hN, hJ⟩ := h
  have h1 : AlertInv
      { st with events := st.events ++ [recordedEvent st now p et s src details],
                next_event_id := st.next_event_id + 1 } now := by
    refine ⟨?_, hN, hJ⟩
    intro a ha
    obtain ⟨ha1, ha2⟩ := hK a ha
    exact ⟨le_trans ha1 hle, ha2⟩
  unfold record_event
  dsimp only
  split
  · exact h1
  · exact alertInv_run_detectors _ p now h1

theorem alertInv_resolve (st : EngineState) (t : Nat) (i : Nat)
    (h : AlertInv st t) : AlertInv (resolve st i) t := by
  obtain ⟨hK, hN, hJ⟩ := h
  have funres : ∀ c : Alert,
      ((if c.id == i then { c with resolved := true } else c) : Alert).resolved
        = false →
      (if c.id == i then { c with resolved := true } else c) = c := by
    intro c hc
    by_cases h' : (c.id == i) = true
    · rw [if_pos h'] at hc
      exact absurd hc (by simp)
    · rw [if_neg h']
  unfold resolve
  refine ⟨?_, ?_, ?_⟩
  · intro a ha
    rw [List.mem_map] at ha
    obtain ⟨b, hb, rfl⟩ := ha
    obtain ⟨h1, h2⟩ := hK b hb
    by_cases h' : (b.id == i) = true
    · rw [if_pos h']
      exact ⟨h1, h2⟩
    · rw [if_neg h']
      exact ⟨h1, h2⟩
  · rw [List.map_map]
    have : ((fun a : Alert => a.id) ∘ fun a : Alert =>
        if a.id == i then { a with resolved := true } else a) =
        fun a : Alert => a.id := by
      funext a
      simp only [Function.comp_apply]
      by_cases h' : (a.id == i) = true
      · rw [if_pos h']
      · rw [if_neg h']
    rw [this]
    exact hN
  · intro a ha b hb hid hp hty hra hrb
    rw [List.mem_map] at ha hb
    obtain ⟨a0, ha0, rfl⟩ := ha
    obtain ⟨b0, hb0, rfl⟩ := hb
    have ea := funres a0 hra
    have eb := funres b0 hrb
    rw [ea] at hid hp hty hra
    rw [eb] at hid hp hty hrb
    rw [ea, eb]
    exact hJ a0 ha0 b0 hb0 hid hp hty hra hrb

theorem reachable_alertInv {st : EngineState} {t : Nat}
    (h : Reachable st t) : AlertInv st t := by
  induction h with
  | init =>
    refine ⟨?_, ?_, ?_⟩ <;> simp [emptyState]
  | record now p et s src details hr hle ih =>
    exact alertInv_record_event _ _ now _ _ _ _ _ hle ih
  | resolveStep i hr ih =>
    exact alertInv_resolve _ _ i ih

end AuditLog

namespace AuditLog

/-- C2: in every reachable state, at most one unresolved alert of a given
`(principal, alert_type)` pair was created within the last hour; and while
such an alert exists, raising the same pair again is suppressed, leaving the
whole alert store — in particular the existing alert's severity, creation
time and every other field — unchanged. -/
theorem alert_dedup_invariant (st : EngineState) (t : Nat)
    (hreach : Reachable st t) (p : String) (ty : AlertType) :
    (st.alerts.filter (fun a =>
      a.principal == p && a.alert_type == ty && a.resolved == false &&
      inWindow a.created_at t 3600)).length ≤ 1 ∧
    ∀ now sev desc a, a ∈ st.alerts → a.principal = p →
      a.alert_type = ty → a.resolved = false → a.created_at ≤ now →
      now < a.created_at + 3600 →
      raiseAlert st ty p sev desc now = (st, RaiseResult.suppressed) := by
  obtain ⟨hK, hN, hJ⟩ := reachable_alertInv hreach
  constructor
  · cases hfl : st.alerts.filter (fun a =>
        a.principal == p && a.alert_type == ty && a.resolved == false &&
        inWindow a.created_at t 3600) with
    | nil => simp
    | cons a l2 =>
      cases l2 with
      | nil => simp
      | cons b l3 =>
        exfalso
        have haf : a ∈ st.alerts.filter (fun a =>
            a.principal == p && a.alert_type == ty && a.resolved == false &&
            inWindow a.created_at t 3600) := by
          rw [hfl]
          exact List.mem_cons_self a _
        have hbf : b ∈ st.alerts.filter (fun a =>
            a.principal == p && a.alert_type == ty && a.resolved == false &&
            inWindow a.created_at t 3600) := by
          rw [hfl]
          exact List.mem_cons_of_mem _ (List.mem_cons_self b _)
        obtain ⟨ha, hpa⟩ := List.mem_filter.mp haf
        obtain ⟨hb, hpb⟩ := List.mem_filter.mp hbf
        have hnd : ((st.alerts.filter (fun a =>
            a.principal == p && a.alert_type == ty && a.resolved == false &&
            inWindow a.created_at t 3600)).map (fun a => a.id)).Nodup :=
          hN.sublist (List.Sublist.map _ (List.filter_sublist _))
        rw [hfl, List.map_cons, List.map_cons, List.nodup_cons] at hnd
        have hid : a.id ≠ b.id := by
          intro hcontr
          exact hnd.1 (by rw [hcontr]; exact List.mem_cons_self _ _)
        simp only [Bool.and_eq_true, beq_iff_eq, inWindow,
          decide_eq_true_eq] at hpa hpb
        obtain ⟨⟨⟨hap, hat⟩, har⟩, hale, halt⟩ := hpa
        obtain ⟨⟨⟨hbp, hbt⟩, hbr⟩, hble, hblt⟩ := hpb
        have := hJ a ha b hb hid (hap.trans hbp.symm) (hat.trans hbt.symm)
          har hbr
        omega
  · intro now sev desc a ha hp hty hres h1 h2
    have hd : dedup_hit st.alerts p ty now = true := by
      unfold dedup_hit
      rw [List.any_eq_true]
      refine ⟨a, ha, ?_⟩
      simp only [Bool.and_eq_true, beq_iff_eq, inWindow, decide_eq_true_eq]
      exact ⟨⟨⟨hp, hty⟩, hres⟩, h1, h2⟩
    unfold raiseAlert
    rw [if_pos hd]

end AuditLog

namespace AuditLog

theorem demoState_reachable : Reachable demoState 240 :=
  Reachable.record 240 "attacker" EventType.LOGIN Status.FAILURE "" []
    (Reachable.record 180 "attacker" EventType.LOGIN Status.FAILURE "" []
      (Reachable.record 120 "attacker" EventType.LOGIN Status.FAILURE "" []
        (Reachable.record 60 "attacker" EventType.LOGIN Status.FAILURE "" []
          (Reachable.record 0 "attacker" EventType.LOGIN Status.FAILURE "" []
            Reachable.init (Nat.le_refl 0))
          (by decide))
        (by decide))
      (by decide))
    (by decide)

/-- Witness for C1 at a concrete input: five LOGIN failures of "attacker" at
times 0, 60, 120, 180, 240. -/
theorem brute_force_threshold_witness :
    alertsOfType (ingest emptyState
        [(0, EventType.LOGIN, Status.FAILURE),
         (60, EventType.LOGIN, Status.FAILURE),
         (120, EventType.LOGIN, Status.FAILURE),
         (180, EventType.LOGIN, Status.FAILURE)] "attacker")
      AlertType.BRUTE_FORCE = [] ∧
    (alertsOfType (ingest emptyState
        [(0, EventType.LOGIN, Status.FAILURE),
         (60, EventType.LOGIN, Status.FAILURE),
         (120, EventType.LOGIN, Status.FAILURE),
         (180, EventType.LOGIN, Status.FAILURE),
         (240, EventType.LOGIN, Status.FAILURE)] "attacker")
      AlertType.BRUTE_FORCE).length = 1 :=
  ⟨(brute_force_threshold "attacker" 0 60 120 180 240 EventType.LOGIN
      EventType.LOGIN EventType.LOGIN EventType.LOGIN EventType.LOGIN
      (Or.inl rfl) (Or.inl rfl) (Or.inl rfl) (Or.inl rfl) (Or.inl rfl)
      (by decide) (by decide) (by decide) (by decide) (by decide)).1,
   (brute_force_threshold "attacker" 0 60 120 180 240 EventType.LOGIN
      EventType.LOGIN EventType.LOGIN EventType.LOGIN EventType.LOGIN
      (Or.inl rfl) (Or.inl rfl) (Or.inl rfl) (Or.inl rfl) (Or.inl rfl)
      (by decide) (by decide) (by decide) (by decide) (by decide)).2.1⟩

/-- Witness for C2 at a concrete reachable state: `demoState` holds at most
one live BRUTE_FORCE alert for "attacker", and raising that pair again while
it is unresolved is suppressed without touching the store. -/
theorem alert_dedup_invariant_witness :
    (demoState.alerts.filter (fun a =>
      a.principal == "attacker" && a.alert_type == AlertType.BRUTE_FORCE &&
      a.resolved == false && inWindow a.created_at 240 3600)).length ≤ 1 ∧
    raiseAlert demoState AlertType.BRUTE_FORCE "attacker" RiskLevel.HIGH
      "again" 3000 = (demoState, RaiseResult.suppressed) :=
  ⟨(alert_dedup_invariant demoState 240 demoState_reachable "attacker"
      AlertType.BRUTE_FORCE).1,
   (alert_dedup_invariant demoState 240 demoState_reachable "attacker"
      AlertType.BRUTE_FORCE).2 3000 RiskLevel.HIGH "again"
      { id := 2, created_at := 240, principal := "attacker",
        alert_type := AlertType.BRUTE_FORCE, severity := RiskLevel.HIGH,
        description := "Detected 5 failed login attempts in 15 minutes",
        resolved := false }
      (by decide) rfl rfl rfl (by decide) (by decide)⟩

/-- Witness for C3 at a concrete input: a first LOGIN failure of "u" on the
empty store. -/
theorem risk_level_failure_streak_witness :
    (record_event emptyState 100 "u" EventType.LOGIN Status.FAILURE "" []).events =
      emptyState.events ++
        [{ id := emptyState.next_event_id, timestamp := 100, principal := "u",
           event_type := EventType.LOGIN, status := Status.FAILURE,
           source := "", details := [],
           risk_level :=
             if failure_streak emptyState.events "u" 100 = 0 then RiskLevel.LOW
             else if failure_streak emptyState.events "u" 100 ≤ 2 then
               RiskLevel.MEDIUM
             else RiskLevel.HIGH }] :=
  risk_level_failure_streak emptyState 100 "u" "" [] EventType.LOGIN
    (Or.inl rfl)

/-- Witness for C4 at a concrete input: two LOGIN failures of "night" at
times 0 and 60, both at local hour 0. -/
theorem unusual_timing_threshold_witness :
    alertsOfType (ingest emptyState [(0, EventType.LOGIN, Status.FAILURE)]
      "night") AlertType.UNUSUAL_TIMING = [] ∧
    (alertsOfType (ingest emptyState
        [(0, EventType.LOGIN, Status.FAILURE),
         (60, EventType.LOGIN, Status.FAILURE)] "night")
      AlertType.UNUSUAL_TIMING).length = 1 :=
  ⟨(unusual_timing_threshold "night" 0 60 EventType.LOGIN EventType.LOGIN
      (by decide) (by decide) (by decide) (by decide) (by decide)
      (by decide)).1,
   (unusual_timing_threshold "night" 0 60 EventType.LOGIN EventType.LOGIN
      (by decide) (by decide) (by decide) (by decide) (by decide)
      (by decide)).2.1⟩

/-- Witness for C5 at a concrete input: ten LOGIN events of "bot", nine of
them successes, at times 0 through 9 — BRUTE_FORCE does not fire, RAPID_FIRE
does. -/
theorem rapid_fire_threshold_witness :
    (alertsOfType (ingest emptyState
        [(0, EventType.LOGIN, Status.SUCCESS),
         (1, EventType.LOGIN, Status.SUCCESS),
         (2, EventType.LOGIN, Status.SUCCESS),
         (3, EventType.LOGIN, Status.SUCCESS),
         (4, EventType.LOGIN, Status.SUCCESS),
         (5, EventType.LOGIN, Status.SUCCESS),
         (6, EventType.LOGIN, Status.SUCCESS),
         (7, EventType.LOGIN, Status.SUCCESS),
         (8, EventType.LOGIN, Status.SUCCESS),
         (9, EventType.LOGIN, Status.FAILURE)] "bot")
      AlertType.RAPID_FIRE).length = 1 :=
  (rapid_fire_threshold "bot" 0 1 2 3 4 5 6 7 8 9 EventType.LOGIN
    EventType.LOGIN EventType.LOGIN EventType.LOGIN EventType.LOGIN
    EventType.LOGIN EventType.LOGIN EventType.LOGIN EventType.LOGIN
    EventType.LOGIN Status.SUCCESS Status.SUCCESS Status.SUCCESS
    Status.SUCCESS Status.SUCCESS Status.SUCCESS Status.SUCCESS
    Status.SUCCESS Status.SUCCESS Status.FAILURE (by decide) (by decide)
    (by decide) (by decide) (by decide) (by decide) (by decide) (by decide)
    (by decide) (by decide) (by decide)).1

/-- Witness for C6 at a concrete input: after resolving an alert on
`demoState`, the first stored event is returned unchanged. -/
theorem event_store_append_only_witness :
    get_event (applyOps demoState [Op.resolveAlert 1]) 1 =
      some { id := 1, timestamp := 0, principal := "attacker",
             event_type := EventType.LOGIN, status := Status.FAILURE,
             source := "", details := [], risk_level := RiskLevel.LOW } :=
  (event_store_append_only demoState [Op.resolveAlert 1]).2 1 _ (by decide)

/-- Witness for C8 at a concrete input: re-resolving alert 1 of `demoState`
changes nothing. -/
theorem resolve_idempotent_total_witness :
    resolve (resolve demoState 1) 1 = resolve demoState 1 :=
  (resolve_idempotent_total demoState 1).2.1

end AuditLog

namespace AuthCore

/-- Witness for C9 at a concrete input: the code of the current window at
time 1734000000 is accepted. -/
theorem validate_totp_witness :
    validate_totp 1734000000 (generate_totp 1734000000) = true ↔
      generate_totp 1734000000 = generate_totp 1734000000 ∨
      generate_totp 1734000000 = generate_totp (1734000000 - 30) :=
  validate_totp_current_or_previous 1734000000 (generate_totp 1734000000)

/-- Witness for C10 at a concrete input: the admin credentials. -/
theorem validate_login_witness :
    (validate_login (strBytes "admin") (strBytes "admin123") = true ↔
      (strBytes "admin").take 49 = strBytes "admin" ∧
        djb2_hash ((strBytes "admin123").take 49) = 407908580)
    ∧ validate_login (strBytes "admin") (strBytes "admin123") = true
    ∧ validate_login (strBytes "admin") (strBytes "admin123")
        = validate_login ((strBytes "admin").take 49)
            ((strBytes "admin123").take 49) :=
  validate_login_spec (strBytes "admin") (strBytes "admin123")

end AuthCore
